import Mathlib

/-!
Verification of the 7sClock rendering core (src/main.cpp).

The embedding below translates the display pipeline of `main.cpp` into pure
Lean functions: the two digit-shape tables and the two physical-order tables,
the color parser, the per-digit segment drawing loop, the separator/blink
state transition of `loop()`, and `updateDisplay()` as an explicit state
transformer on the two LED strip buffers.  Machine integers of the source
(`uint8_t`, `int`, `uint32_t`) are represented as `Nat`; all values that
occur stay far below any overflow boundary.
-/

namespace SevenSClock

/-- `#define NUM_LEDS 15` (main.cpp line 26). -/
def NUM_LEDS : Nat := 15

/-- `segmentMap` (main.cpp lines 34-37): 7-bit shape mask per digit for the
hour strip, most significant bit first. -/
def segmentMap : List Nat :=
  [0b1111110, 0b0110000, 0b1101101, 0b1111001, 0b0110011,
   0b1011011, 0b1011111, 0b1110000, 0b1111111, 0b1111011]

/-- `minuteSegmentMap` (main.cpp lines 39-42): 7-bit shape mask per digit for
the minute strip. -/
def minuteSegmentMap : List Nat :=
  [0b1110111, 0b0010010, 0b1011101, 0b1011011, 0b0111010,
   0b1101011, 0b1101111, 0b1010010, 0b1111111, 0b1111011]

/-- `hourSegmentOrder` (main.cpp line 103): physical element offset for each
bit position (MSB first) of the hour strip. -/
def hourSegmentOrder : List Nat := [1, 0, 4, 5, 6, 2, 3]

/-- `minuteSegmentOrder` (main.cpp line 104). -/
def minuteSegmentOrder : List Nat := [5, 4, 6, 3, 0, 2, 1]

/-- The display-relevant fields of `struct ClockConfig` (main.cpp lines
44-56).  `segmentColor` is the configured color string held as the list of
its character codes (the source stores an Arduino `String` such as
`"#FF0000"`); the network/timezone fields play no role in rendering. -/
structure ClockConfig where
  blinkDots : Bool
  brightness : Nat
  segmentColor : List Nat
  use24h : Bool
  hideLeadingZero24h : Bool
  autoDim : Bool
  dimStartHour : Nat
  dimEndHour : Nat
deriving DecidableEq, Repr

/-- The defaults given by the member initializers of `ClockConfig`:
`blinkDots = true`, `brightness = 50`, `segmentColor = "#FF0000"`,
`use24h = false`, `hideLeadingZero24h = false`, `autoDim = true`,
`dimStartHour = 22`, `dimEndHour = 6`. -/
def defaultConfig : ClockConfig :=
  { blinkDots := true
    brightness := 50
    segmentColor := [35, 70, 70, 48, 48, 48, 48]
    use24h := false
    hideLeadingZero24h := false
    autoDim := true
    dimStartHour := 22
    dimEndHour := 6 }

/-- Value of one hexadecimal digit character code, as `strtoul(..., 16)`
accepts them. -/
def hexDigitVal (c : Nat) : Option Nat :=
  if 48 ≤ c ∧ c ≤ 57 then some (c - 48)
  else if 97 ≤ c ∧ c ≤ 102 then some (c - 87)
  else if 65 ≤ c ∧ c ≤ 70 then some (c - 55)
  else none

/-- Accumulating base-16 parse of a leading run of hex digits, stopping at
the first character that is not a hex digit (the behavior of `strtoul` on the
color strings the web form produces). -/
def parseHexRun : List Nat → Nat → Nat
  | [], acc => acc
  | c :: rest, acc =>
    match hexDigitVal c with
    | some v => parseHexRun rest (16 * acc + v)
    | none => acc

/-- `parseColor` (main.cpp lines 94-97): remove every `#` character, then
`strtoul(..., NULL, 16)`. -/
def parseColor (hexColor : List Nat) : Nat :=
  parseHexRun (hexColor.filter (fun c => c ≠ 35)) 0

/-- `struct tm` restricted to the fields `updateDisplay` reads
(`tm_hour`, `tm_min`). -/
structure TimeOfDay where
  hour : Nat
  minute : Nat
deriving DecidableEq, Repr

/-- State of one `Adafruit_NeoPixel` strip as the rendering code uses it: the
per-element color buffer and the strip-wide brightness scalar. -/
structure Strip where
  pixels : List Nat
  brightness : Nat
deriving DecidableEq, Repr

/-- `strip.setPixelColor(n, c)`: writes element `n` if it is in range,
otherwise does nothing (`List.set` has exactly this out-of-range behavior). -/
def setPixelColor (s : Strip) (n c : Nat) : Strip :=
  { s with pixels := s.pixels.set n c }

/-- `strip.clear()`: every element of the buffer becomes 0.  The buffer size
is fixed at construction to `NUM_LEDS` (main.cpp lines 28-29). -/
def stripClear (s : Strip) : Strip :=
  { s with pixels := List.replicate NUM_LEDS 0 }

/-- A sequence of `setPixelColor` writes, first component the element index,
second the color value, applied left to right. -/
def applyWrites (s : Strip) (ws : List (Nat × Nat)) : Strip :=
  ws.foldl (fun acc w => setPixelColor acc w.1 w.2) s

/-- The segment decoding inside `drawDigit` (main.cpp lines 106-113):
iteration `i` of the loop reads bit `6 - i` of the role's shape mask
(`(segments >> (6 - i)) & 1`) and pairs it with the role's physical offset
`mapping[i]`.  Returns the seven (offset, lit) pairs in loop order. -/
def encode (digit : Nat) (isMinute : Bool) : List (Nat × Bool) :=
  let segments := if isMinute then minuteSegmentMap.getD digit 0 else segmentMap.getD digit 0
  let mapping := if isMinute then minuteSegmentOrder else hourSegmentOrder
  (List.range 7).map (fun i => (mapping.getD i 0, segments.testBit (6 - i)))

/-- The seven buffer writes one `drawDigit(strip, startIndex, digit, isMinute)`
call performs: element `startIndex + mapping[i]` receives the configured color
when the bit is set, else 0. -/
def digitWrites (cfg : ClockConfig) (startIndex digit : Nat) (isMinute : Bool) :
    List (Nat × Nat) :=
  (encode digit isMinute).map
    (fun e => (startIndex + e.1, if e.2 then parseColor cfg.segmentColor else 0))

/-- `drawDigit` (main.cpp lines 106-114). -/
def drawDigit (cfg : ClockConfig) (strip : Strip) (startIndex digit : Nat)
    (isMinute : Bool) : Strip :=
  applyWrites strip (digitWrites cfg startIndex digit isMinute)

/-- The 12h/24h hour conversion of `updateDisplay` (main.cpp lines 120-124):
`if (!use24h) { if (hour > 12) hour -= 12; if (hour == 0) hour = 12; }`. -/
def displayHour (cfg : ClockConfig) (hour : Nat) : Nat :=
  if cfg.use24h = false then
    let h := if hour > 12 then hour - 12 else hour
    if h = 0 then 12 else h
  else hour

/-- The hour-tens draw condition of `updateDisplay` (main.cpp line 136):
`h1 > 0 || (config.use24h && !config.hideLeadingZero24h)` where
`h1 = hour / 10` of the converted hour. -/
def hourTensShown (cfg : ClockConfig) (hour : Nat) : Bool :=
  decide (0 < displayHour cfg hour / 10) || (cfg.use24h && !cfg.hideLeadingZero24h)

/-- The brightness computation of `updateDisplay` (main.cpp lines 141-144):
`config.brightness`, replaced by `config.brightness / 3` when
`config.autoDim && (tm_hour >= dimStartHour || tm_hour < dimEndHour)`. -/
def dynamicBrightness (cfg : ClockConfig) (hour : Nat) : Nat :=
  if cfg.autoDim = true ∧ (cfg.dimStartHour ≤ hour ∨ hour < cfg.dimEndHour)
  then cfg.brightness / 3
  else cfg.brightness

/-- The two strips as global state of the sketch. -/
structure SysState where
  hourStrip : Strip
  minuteStrip : Strip
deriving DecidableEq, Repr

/-- `updateDisplay` (main.cpp lines 116-150).  `getLocalTime` failing is the
`none` case: the function returns before touching any strip.  Otherwise both
strips are cleared, element 0 of each is set from `dotState`, the four digits
are drawn (the hour-tens digit only under `hourTensShown`), and the computed
brightness is applied to both strips.  `show()` transmits the buffers and is
outside the state modelled here. -/
def updateDisplay (timeinfo : Option TimeOfDay) (cfg : ClockConfig)
    (dotState : Bool) (st : SysState) : SysState :=
  match timeinfo with
  | none => st
  | some t =>
    let hour := displayHour cfg t.hour
    let minute := t.minute
    let h1 := hour / 10
    let h2 := hour % 10
    let m1 := minute / 10
    let m2 := minute % 10
    let hourStrip := stripClear st.hourStrip
    let minuteStrip := stripClear st.minuteStrip
    let dotColor := if dotState then parseColor cfg.segmentColor else 0
    let hourStrip := setPixelColor hourStrip 0 dotColor
    let minuteStrip := setPixelColor minuteStrip 0 dotColor
    let hourStrip :=
      if hourTensShown cfg t.hour then drawDigit cfg hourStrip 8 h1 false
      else hourStrip
    let hourStrip := drawDigit cfg hourStrip 1 h2 false
    let minuteStrip := drawDigit cfg minuteStrip 1 m1 true
    let minuteStrip := drawDigit cfg minuteStrip 8 m2 true
    let b := dynamicBrightness cfg t.hour
    let hourStrip := { hourStrip with brightness := b }
    let minuteStrip := { minuteStrip with brightness := b }
    { hourStrip := hourStrip, minuteStrip := minuteStrip }

/-- `bool dotState = true` (main.cpp line 59): the initial blink state. -/
def dotStateInit : Bool := true

/-- The blink-state transition of `loop()` (main.cpp line 359):
`dotState = config.blinkDots ? !dotState : true`. -/
def nextDotState (cfg : ClockConfig) (dotState : Bool) : Bool :=
  if cfg.blinkDots then !dotState else true

/-- The blink state after `n` cadence ticks from the initial value, under a
configuration held fixed. -/
def iterDotState (cfg : ClockConfig) : Nat → Bool
  | 0 => dotStateInit
  | n + 1 => nextDotState cfg (iterDotState cfg n)

/-- The physical offsets (within a digit slot) whose elements are lit for a
digit under a role: the `fst` of the `encode` pairs whose bit is set. -/
def litOffsets (d : Nat) (isMinute : Bool) : List Nat :=
  ((encode d isMinute).filter Prod.snd).map Prod.fst

/-- Snapshot of the lit physical offsets per digit for the hour role
(digit 0 first). -/
def hourLitTable : List (List Nat) :=
  [[1, 0, 4, 5, 6, 2], [0, 4], [1, 0, 5, 6, 3], [1, 0, 4, 5, 3], [0, 4, 2, 3],
   [1, 4, 5, 2, 3], [1, 4, 5, 6, 2, 3], [1, 0, 4], [1, 0, 4, 5, 6, 2, 3],
   [1, 0, 4, 5, 2, 3]]

/-- Snapshot of the lit physical offsets per digit for the minute role. -/
def minuteLitTable : List (List Nat) :=
  [[5, 4, 6, 0, 2, 1], [6, 2], [5, 6, 3, 0, 1], [5, 6, 3, 2, 1], [4, 6, 3, 2],
   [5, 4, 3, 2, 1], [5, 4, 3, 0, 2, 1], [5, 6, 2], [5, 4, 6, 3, 0, 2, 1],
   [5, 4, 6, 3, 2, 1]]

/-! ## Helper lemmas on strip writes -/

theorem applyWrites_nil (s : Strip) : applyWrites s [] = s := rfl

theorem applyWrites_cons (s : Strip) (w : Nat × Nat) (ws : List (Nat × Nat)) :
    applyWrites s (w :: ws) = applyWrites (setPixelColor s w.1 w.2) ws := rfl

theorem applyWrites_brightness : ∀ (ws : List (Nat × Nat)) (s : Strip),
    (applyWrites s ws).brightness = s.brightness
  | [], _ => rfl
  | w :: ws, s => by
    rw [applyWrites_cons, applyWrites_brightness ws]; rfl

theorem applyWrites_pixels_length : ∀ (ws : List (Nat × Nat)) (s : Strip),
    (applyWrites s ws).pixels.length = s.pixels.length
  | [], _ => rfl
  | w :: ws, s => by
    rw [applyWrites_cons, applyWrites_pixels_length ws]
    simp [setPixelColor]

theorem applyWrites_getElem_of_notMem : ∀ (ws : List (Nat × Nat)) (s : Strip) (j : Nat),
    (∀ w ∈ ws, w.1 ≠ j) → (applyWrites s ws).pixels[j]? = s.pixels[j]?
  | [], _, _, _ => rfl
  | w :: ws, s, j, h => by
    rw [applyWrites_cons,
      applyWrites_getElem_of_notMem ws _ j (fun v hv => h v (List.mem_cons_of_mem _ hv))]
    exact List.getElem?_set_ne (h w (List.mem_cons_self _ _))

theorem applyWrites_mem (P : Nat → Prop) : ∀ (ws : List (Nat × Nat)) (s : Strip),
    (∀ c ∈ s.pixels, P c) → (∀ w ∈ ws, P w.2) →
    ∀ c ∈ (applyWrites s ws).pixels, P c
  | [], _, hs, _ => hs
  | w :: ws, s, hs, hw => by
    rw [applyWrites_cons]
    refine applyWrites_mem P ws _ ?_ (fun v hv => hw v (List.mem_cons_of_mem _ hv))
    intro c hc
    rcases List.mem_or_eq_of_mem_set hc with h | h
    · exact hs c h
    · exact h ▸ hw w (List.mem_cons_self _ _)

theorem digitWrites_fst (cfg : ClockConfig) (b d : Nat) (m : Bool) :
    (digitWrites cfg b d m).map Prod.fst =
      (if m then minuteSegmentOrder else hourSegmentOrder).map (fun o => b + o) := by
  cases m <;> rfl

theorem digitWrites_fst_mem (cfg : ClockConfig) (b d : Nat) (m : Bool) :
    ∀ w ∈ digitWrites cfg b d m, b ≤ w.1 ∧ w.1 < b + 7 := by
  intro w hw
  have h1 : w.1 ∈ (digitWrites cfg b d m).map Prod.fst := List.mem_map_of_mem _ hw
  rw [digitWrites_fst] at h1
  cases m <;> simp [hourSegmentOrder, minuteSegmentOrder] at h1 <;> omega

theorem digitWrites_snd_mem (cfg : ClockConfig) (b d : Nat) (m : Bool) :
    ∀ w ∈ digitWrites cfg b d m, w.2 = parseColor cfg.segmentColor ∨ w.2 = 0 := by
  intro w hw
  simp only [digitWrites, List.mem_map] at hw
  obtain ⟨e, _, rfl⟩ := hw
  cases e.2 <;> simp

theorem drawDigit_brightness (cfg : ClockConfig) (s : Strip) (b d : Nat) (m : Bool) :
    (drawDigit cfg s b d m).brightness = s.brightness :=
  applyWrites_brightness _ _

theorem drawDigit_pixels_length (cfg : ClockConfig) (s : Strip) (b d : Nat) (m : Bool) :
    (drawDigit cfg s b d m).pixels.length = s.pixels.length :=
  applyWrites_pixels_length _ _

theorem drawDigit_getElem_outside (cfg : ClockConfig) (s : Strip) (b d : Nat) (m : Bool)
    (j : Nat) (hj : j < b ∨ b + 7 ≤ j) :
    (drawDigit cfg s b d m).pixels[j]? = s.pixels[j]? := by
  refine applyWrites_getElem_of_notMem _ _ _ (fun w hw => ?_)
  have := digitWrites_fst_mem cfg b d m w hw
  omega

theorem drawDigit_mem (cfg : ClockConfig) (s : Strip) (b d : Nat) (m : Bool)
    (hs : ∀ c ∈ s.pixels, c = parseColor cfg.segmentColor ∨ c = 0) :
    ∀ c ∈ (drawDigit cfg s b d m).pixels, c = parseColor cfg.segmentColor ∨ c = 0 :=
  applyWrites_mem _ _ _ hs (digitWrites_snd_mem cfg b d m)

theorem setPixelColor_mem (P : Nat → Prop) (s : Strip) (n c : Nat)
    (hs : ∀ x ∈ s.pixels, P x) (hc : P c) :
    ∀ x ∈ (setPixelColor s n c).pixels, P x := by
  intro x hx
  rcases List.mem_or_eq_of_mem_set hx with h | h
  · exact hs x h
  · exact h ▸ hc

/-- The result of a render tick does not depend on the incoming strip state:
both buffers are rebuilt from cleared state and the brightness of both strips
is overwritten. -/
theorem updateDisplay_indep (t : TimeOfDay) (cfg : ClockConfig) (dotState : Bool)
    (s1 s2 : SysState) :
    updateDisplay (some t) cfg dotState s1 = updateDisplay (some t) cfg dotState s2 := by
  rcases Bool.eq_false_or_eq_true (hourTensShown cfg t.hour) with hts | hts <;>
    simp only [updateDisplay, hts] <;> rfl

/-! ## Claim theorems -/

/-- C9: when no time value is available (`getLocalTime` fails), the render
tick is skipped and the whole strip state — both frame buffers and both
brightness values — is left entirely unchanged, so the last displayed frame
is retained and no partial frame is produced. -/
theorem C9_no_time_skip (cfg : ClockConfig) (dotState : Bool) (st : SysState) :
    updateDisplay none cfg dotState st = st := rfl

/-- C1 counterexample: with `autoDim = true`, a strictly non-wrapping window
`dimStartHour = 6 < 22 = dimWindowEndHour` and base brightness 90, hour 3 is
outside `[start, end)` yet the code still dims it to `90 / 3 = 30 ≠ 90`,
because the test `hour >= dimStartHour || hour < dimEndHour` holds for every
hour once `start ≤ end`.  This refutes the claimed biconditional. -/
theorem C1_counterexample :
    ClockConfig.autoDim { defaultConfig with brightness := 90, dimStartHour := 6, dimEndHour := 22 } = true ∧
    ClockConfig.dimStartHour { defaultConfig with brightness := 90, dimStartHour := 6, dimEndHour := 22 } <
      ClockConfig.dimEndHour { defaultConfig with brightness := 90, dimStartHour := 6, dimEndHour := 22 } ∧
    ¬(ClockConfig.dimStartHour { defaultConfig with brightness := 90, dimStartHour := 6, dimEndHour := 22 } ≤ 3 ∧
      3 < ClockConfig.dimEndHour { defaultConfig with brightness := 90, dimStartHour := 6, dimEndHour := 22 }) ∧
    dynamicBrightness { defaultConfig with brightness := 90, dimStartHour := 6, dimEndHour := 22 } 3 = 30 ∧
    (30 : Nat) ≠ 90 := by decide

/-- C1 as amended: with `autoDim = true` and `dimWindowStartHour ≤
dimWindowEndHour` (in particular strictly `start < end`), the effective
brightness equals `baseBrightness / 3` for EVERY hour — the in-window test
`hour ≥ start ∨ hour < end` is satisfied by all hours whenever `start ≤ end`,
so the code never realizes a non-wrapping window. -/
theorem C1_nonwrap_always_dim (cfg : ClockConfig) (hour : Nat)
    (ha : cfg.autoDim = true) (hle : cfg.dimStartHour ≤ cfg.dimEndHour) :
    dynamicBrightness cfg hour = cfg.brightness / 3 := by
  unfold dynamicBrightness
  rw [if_pos ⟨ha, by omega⟩]

/-- Witness for `C1_nonwrap_always_dim` at a concrete configuration. -/
theorem C1_witness :
    dynamicBrightness { defaultConfig with brightness := 90, dimStartHour := 6, dimEndHour := 22 } 3 = 30 := by
  rw [C1_nonwrap_always_dim _ 3 rfl (by decide)]; decide

/-- C3: with `autoDim = true` and `dimWindowStartHour ≥ dimWindowEndHour`, the
effective brightness is `baseBrightness / 3` exactly on the wrapping window
`hour ≥ start ∨ hour < end` and `baseBrightness` otherwise; with
`start = end` every hour is dimmed; with `autoDim = false` every hour yields
`baseBrightness` unchanged. -/
theorem C3_wrapping_dim (cfg : ClockConfig) (hour : Nat) (hh : hour < 24) :
    (cfg.autoDim = true → cfg.dimEndHour ≤ cfg.dimStartHour →
      dynamicBrightness cfg hour =
        if cfg.dimStartHour ≤ hour ∨ hour < cfg.dimEndHour then cfg.brightness / 3
        else cfg.brightness)
  ∧ (cfg.autoDim = true → cfg.dimStartHour = cfg.dimEndHour →
      dynamicBrightness cfg hour = cfg.brightness / 3)
  ∧ (cfg.autoDim = false → dynamicBrightness cfg hour = cfg.brightness) := by
  refine ⟨fun ha _ => ?_, fun ha heq => ?_, fun ha => ?_⟩
  · unfold dynamicBrightness
    by_cases hw : cfg.dimStartHour ≤ hour ∨ hour < cfg.dimEndHour
    · rw [if_pos ⟨ha, hw⟩, if_pos hw]
    · rw [if_neg (fun hc => hw hc.2), if_neg hw]
  · unfold dynamicBrightness
    rw [if_pos ⟨ha, by omega⟩]
  · unfold dynamicBrightness
    rw [if_neg (fun hc => by rw [ha] at hc; exact Bool.false_ne_true hc.1)]

/-- Witness for `C3_wrapping_dim`: the spec's own example values
(`start = 22`, `end = 6`, `base = 90`), hour 23 dims to 30, and the
degenerate `start = end = 6` dims hour 14 to 30. -/
theorem C3_witness :
    dynamicBrightness { defaultConfig with brightness := 90 } 23 = 30 ∧
    dynamicBrightness { defaultConfig with brightness := 90, dimStartHour := 6, dimEndHour := 6 } 14 = 30 := by
  constructor
  · have h := (C3_wrapping_dim { defaultConfig with brightness := 90 } 23 (by decide)).1 rfl (by decide)
    rw [h]; decide
  · have h := (C3_wrapping_dim { defaultConfig with brightness := 90, dimStartHour := 6, dimEndHour := 6 } 14
      (by decide)).2.1 rfl (by decide)
    rw [h]; decide

/-- C4: in 12-hour mode (`use24h = false`) the displayed hour is 12 for hours
0 and 12, `hour - 12` for 13..23, and `hour` otherwise; the hour-tens digit is
drawn iff the displayed hour has two digits, i.e. it is suppressed exactly
when the displayed hour is a single digit (< 10). -/
theorem C4_twelve_hour (cfg : ClockConfig) (hour : Nat) (hh : hour < 24)
    (h12 : cfg.use24h = false) :
    displayHour cfg hour =
      (if hour = 0 ∨ hour = 12 then 12 else if 13 ≤ hour then hour - 12 else hour)
  ∧ (hourTensShown cfg hour = false ↔ displayHour cfg hour < 10) := by
  constructor
  · simp only [displayHour, h12]
    interval_cases hour <;> decide
  · simp only [hourTensShown, displayHour, h12, Bool.false_and, Bool.or_false]
    interval_cases hour <;> decide

/-- Witness for `C4_twelve_hour` at hour 13 (displays "1", tens digit
suppressed). -/
theorem C4_witness :
    displayHour defaultConfig 13 = 1 ∧ hourTensShown defaultConfig 13 = false := by
  have h := C4_twelve_hour defaultConfig 13 (by decide) rfl
  exact ⟨by rw [h.1]; decide, h.2.mpr (by rw [h.1]; decide)⟩

/-- C5: in 24-hour mode the hour is used unmodified, and the hour-tens digit
is suppressed exactly when `hideLeadingZeroIn24h` is set and the hour is a
single digit (< 10); hours ≥ 10 are never suppressed. -/
theorem C5_twentyfour_hour (cfg : ClockConfig) (hour : Nat) (hh : hour < 24)
    (h24 : cfg.use24h = true) :
    displayHour cfg hour = hour
  ∧ (hourTensShown cfg hour = false ↔ (cfg.hideLeadingZero24h = true ∧ hour < 10)) := by
  constructor
  · simp [displayHour, h24]
  · simp only [hourTensShown, displayHour, h24]
    cases hz : cfg.hideLeadingZero24h <;> simp [hz] <;> omega

/-- Witness for `C5_twentyfour_hour` at hour 0 with the leading-zero hiding
enabled: the tens digit is suppressed. -/
theorem C5_witness :
    displayHour { defaultConfig with use24h := true, hideLeadingZero24h := true } 0 = 0 ∧
    hourTensShown { defaultConfig with use24h := true, hideLeadingZero24h := true } 0 = false := by
  have h := C5_twentyfour_hour { defaultConfig with use24h := true, hideLeadingZero24h := true } 0
    (by decide) rfl
  exact ⟨h.1, h.2.mpr ⟨rfl, by decide⟩⟩

/-- C2 counterexample: with `blinkSeparator` (`blinkDots`) disabled and the
blink state currently `true`, the cadence tick leaves the state at `true`
instead of negating it to `false` — the toggle in `loop()` is
`dotState = config.blinkDots ? !dotState : true`, so the negation IS gated by
the configuration flag, contrary to the claim. -/
theorem C2_counterexample :
    ClockConfig.blinkDots { defaultConfig with blinkDots := false } = false ∧
    nextDotState { defaultConfig with blinkDots := false } true = true ∧
    nextDotState { defaultConfig with blinkDots := false } true ≠ (!true) := by decide

/-- C2 as amended: the blink state is negated on a cadence tick only when
`cfg.blinkSeparator` (`blinkDots`) is enabled; when it is disabled the tick
forces the state to lit (`true`).  The separator indicator uses the state
directly, so it is still permanently lit while blinking is disabled, and
while blinking is enabled the state alternates with the parity of the tick
count from its initial value `true`. -/
theorem C2_blink_gated (cfg : ClockConfig) (b : Bool) (n : Nat) :
    (cfg.blinkDots = true → nextDotState cfg b = !b)
  ∧ (cfg.blinkDots = false → nextDotState cfg b = true)
  ∧ dotStateInit = true
  ∧ (cfg.blinkDots = true → iterDotState cfg n = decide (n % 2 = 0))
  ∧ (cfg.blinkDots = false → iterDotState cfg n = true) := by
  refine ⟨fun h => by simp [nextDotState, h], fun h => by simp [nextDotState, h], rfl, ?_, ?_⟩
  · intro h
    induction n with
    | zero => rfl
    | succ n ih =>
      rw [iterDotState, nextDotState, h, if_pos rfl, ih]
      by_cases hp : n % 2 = 0
      · have h1 : (n + 1) % 2 ≠ 0 := by omega
        simp [hp, h1]
      · have h1 : (n + 1) % 2 = 0 := by omega
        simp [hp, h1]
  · intro h
    cases n with
    | zero => rfl
    | succ n => simp [iterDotState, nextDotState, h]

/-- Witness for `C2_blink_gated`: with the default configuration
(`blinkDots = true`), after 5 ticks the state is `false` (odd parity). -/
theorem C2_witness : iterDotState defaultConfig 5 = decide (5 % 2 = 0) :=
  (C2_blink_gated defaultConfig true 5).2.2.2.1 rfl

/-- C6: for every digit 0..9 and each role, `encode` yields exactly 7 boolean
segment states; the physical offsets it pairs them with are, in
most-significant-bit-first order, exactly the role's 7-entry physical-position
table; the booleans are the bits of the role's 10-entry digit-shape table read
MSB first; each bit position maps to physical element `slotBase +
positionTable[i]` in the writes of `drawDigit`; the lit physical offsets are a
fixed, role-specific constant per digit (the 20 snapshot lists); and the two
roles use distinct position and shape tables. -/
theorem C6_encode_table :
    (∀ d, d < 10 → ∀ m : Bool,
      (encode d m).length = 7
      ∧ (encode d m).map Prod.fst = (if m then minuteSegmentOrder else hourSegmentOrder)
      ∧ (encode d m).map Prod.snd = (List.range 7).map
          (fun i => Nat.testBit ((if m then minuteSegmentMap else segmentMap).getD d 0) (6 - i))
      ∧ (∀ (cfg : ClockConfig) (b : Nat), (digitWrites cfg b d m).map Prod.fst
            = (if m then minuteSegmentOrder else hourSegmentOrder).map (fun o => b + o))
      ∧ litOffsets d m = (if m then minuteLitTable else hourLitTable).getD d [])
  ∧ hourSegmentOrder ≠ minuteSegmentOrder
  ∧ segmentMap ≠ minuteSegmentMap := by
  refine ⟨fun d hd m => ?_, by decide, by decide⟩
  cases m <;> interval_cases d <;>
    exact ⟨by decide, by decide, by decide, fun cfg b => rfl, by decide⟩

/-- Witness for `C6_encode_table` at digit 8, minute role: 7 segment states,
all lit, in the minute role's physical order. -/
theorem C6_witness :
    (encode 8 true).length = 7 ∧ litOffsets 8 true = [5, 4, 6, 3, 0, 2, 1] := by
  have h := C6_encode_table.1 8 (by decide) true
  exact ⟨h.1, by rw [h.2.2.2.2]; decide⟩

/-- C10: both 7-entry physical-position tables are permutations of
`{0, ..., 6}`; a `drawDigit` call at slot base `b` leaves every buffer element
outside `b..b+6` unchanged (in particular the separator at index 0 and the
other digit's slot); and the set of element indices it writes is exactly
`b..b+6`, each written once. -/
theorem C10_order_permutation :
    List.Perm hourSegmentOrder (List.range 7)
  ∧ List.Perm minuteSegmentOrder (List.range 7)
  ∧ (∀ (cfg : ClockConfig) (s : Strip) (b d : Nat) (m : Bool) (j : Nat),
      j < b ∨ b + 7 ≤ j →
      (drawDigit cfg s b d m).pixels[j]? = s.pixels[j]?)
  ∧ (∀ (cfg : ClockConfig) (b d : Nat) (m : Bool),
      List.Perm ((digitWrites cfg b d m).map Prod.fst)
        ((List.range 7).map (fun o => b + o))) := by
  refine ⟨by decide, by decide, fun cfg s b d m j hj => drawDigit_getElem_outside cfg s b d m j hj, ?_⟩
  intro cfg b d m
  rw [digitWrites_fst]
  cases m
  · exact List.Perm.map _ (by decide)
  · exact List.Perm.map _ (by decide)

/-- Witness for `C10_order_permutation`: drawing digit 3 at slot base 8 on a
strip whose elements all hold 5 leaves the separator element 0 unchanged. -/
theorem C10_witness :
    (drawDigit defaultConfig ⟨List.replicate 15 5, 0⟩ 8 3 false).pixels[0]? = some 5 := by
  rw [C10_order_permutation.2.2.1 defaultConfig ⟨List.replicate 15 5, 0⟩ 8 3 false 0
    (Or.inl (by decide))]
  decide

/-- C7: after a render tick with a valid time, each frame buffer holds exactly
15 element colors, each element is either the configured solid color or 0;
element 0 of each buffer is the separator, set per the blink lit-state; one
effective brightness value is applied uniformly to both strips; and the
result equals the render from fully cleared buffers — the frame is entirely
recomputed, never partially updated (no hypothesis constrains the incoming
buffers). -/
theorem C7_frame_invariants (t : TimeOfDay) (cfg : ClockConfig) (blink : Bool) (st : SysState)
    (ht : t.hour < 24) (hm : t.minute < 60) :
    (updateDisplay (some t) cfg blink st).hourStrip.pixels.length = 15
  ∧ (updateDisplay (some t) cfg blink st).minuteStrip.pixels.length = 15
  ∧ (∀ c ∈ (updateDisplay (some t) cfg blink st).hourStrip.pixels,
      c = parseColor cfg.segmentColor ∨ c = 0)
  ∧ (∀ c ∈ (updateDisplay (some t) cfg blink st).minuteStrip.pixels,
      c = parseColor cfg.segmentColor ∨ c = 0)
  ∧ (updateDisplay (some t) cfg blink st).hourStrip.pixels[0]? =
      some (if blink then parseColor cfg.segmentColor else 0)
  ∧ (updateDisplay (some t) cfg blink st).minuteStrip.pixels[0]? =
      some (if blink then parseColor cfg.segmentColor else 0)
  ∧ (updateDisplay (some t) cfg blink st).hourStrip.brightness = dynamicBrightness cfg t.hour
  ∧ (updateDisplay (some t) cfg blink st).minuteStrip.brightness = dynamicBrightness cfg t.hour
  ∧ updateDisplay (some t) cfg blink st =
      updateDisplay (some t) cfg blink
        ⟨⟨List.replicate NUM_LEDS 0, 0⟩, ⟨List.replicate NUM_LEDS 0, 0⟩⟩ := by
  have hmem0 : ∀ c ∈ (List.replicate NUM_LEDS (0 : Nat)), c = parseColor cfg.segmentColor ∨ c = 0 :=
    fun c hc => Or.inr (List.eq_of_mem_replicate hc)
  have hdot : (if blink = true then parseColor cfg.segmentColor else 0) = parseColor cfg.segmentColor ∨
      (if blink = true then parseColor cfg.segmentColor else 0) = 0 := by
    cases blink <;> simp
  have tens_len : ∀ Y : Strip,
      (if hourTensShown cfg t.hour = true
        then drawDigit cfg Y 8 (displayHour cfg t.hour / 10) false else Y).pixels.length
      = Y.pixels.length := by
    intro Y; split
    · exact drawDigit_pixels_length _ _ _ _ _
    · rfl
  have tens_mem : ∀ Y : Strip, (∀ c ∈ Y.pixels, c = parseColor cfg.segmentColor ∨ c = 0) →
      ∀ c ∈ (if hourTensShown cfg t.hour = true
        then drawDigit cfg Y 8 (displayHour cfg t.hour / 10) false else Y).pixels,
        c = parseColor cfg.segmentColor ∨ c = 0 := by
    intro Y hY; split
    · exact drawDigit_mem _ _ _ _ _ hY
    · exact hY
  have tens_zero : ∀ Y : Strip,
      (if hourTensShown cfg t.hour = true
        then drawDigit cfg Y 8 (displayHour cfg t.hour / 10) false else Y).pixels[0]?
      = Y.pixels[0]? := by
    intro Y; split
    · exact drawDigit_getElem_outside _ _ _ _ _ _ (Or.inl (by omega))
    · rfl
  refine ⟨?_, ?_, ?_, ?_, ?_, ?_, ?_, ?_, updateDisplay_indep t cfg blink st _⟩
  · simp only [updateDisplay]
    rw [drawDigit_pixels_length, tens_len]
    simp [setPixelColor, stripClear, NUM_LEDS]
  · simp only [updateDisplay]
    rw [drawDigit_pixels_length, drawDigit_pixels_length]
    simp [setPixelColor, stripClear, NUM_LEDS]
  · simp only [updateDisplay]
    exact drawDigit_mem _ _ _ _ _ (tens_mem _
      (setPixelColor_mem _ _ _ _ (fun x hx => hmem0 x hx) hdot))
  · simp only [updateDisplay]
    exact drawDigit_mem _ _ _ _ _ (drawDigit_mem _ _ _ _ _
      (setPixelColor_mem _ _ _ _ (fun x hx => hmem0 x hx) hdot))
  · simp only [updateDisplay]
    rw [drawDigit_getElem_outside _ _ _ _ _ _ (Or.inl (by omega)), tens_zero]
    simp [setPixelColor, stripClear, NUM_LEDS]
  · simp only [updateDisplay]
    rw [drawDigit_getElem_outside _ _ _ _ _ _ (Or.inl (by omega)),
      drawDigit_getElem_outside _ _ _ _ _ _ (Or.inl (by omega))]
    simp [setPixelColor, stripClear, NUM_LEDS]
  · simp only [updateDisplay]
  · simp only [updateDisplay]

/-- Witness for `C7_frame_invariants` at 14:07, default configuration, blink
lit, starting from zeroed buffers. -/
theorem C7_witness :
    (updateDisplay (some ⟨14, 7⟩) defaultConfig true
        ⟨⟨List.replicate 15 0, 0⟩, ⟨List.replicate 15 0, 0⟩⟩).hourStrip.pixels.length = 15
  ∧ (updateDisplay (some ⟨14, 7⟩) defaultConfig true
        ⟨⟨List.replicate 15 0, 0⟩, ⟨List.replicate 15 0, 0⟩⟩).hourStrip.pixels[0]? =
      some (if true then parseColor defaultConfig.segmentColor else 0) := by
  have h := C7_frame_invariants ⟨14, 7⟩ defaultConfig true
    ⟨⟨List.replicate 15 0, 0⟩, ⟨List.replicate 15 0, 0⟩⟩ (by decide) (by decide)
  exact ⟨h.1, h.2.2.2.2.1⟩

/-- C8: the render operation is deterministic and carries no hidden state
beyond its explicit inputs — two calls with identical time, configuration
snapshot and blink value produce identical frame buffers and brightness
values, whatever the two incoming strip states were. -/
theorem C8_render_deterministic (t : TimeOfDay) (cfg : ClockConfig) (blink : Bool)
    (s1 s2 : SysState) :
    updateDisplay (some t) cfg blink s1 = updateDisplay (some t) cfg blink s2 :=
  updateDisplay_indep t cfg blink s1 s2

end SevenSClock
